import Mathlib

/-!
Shallow embedding of the hsa-runtime Rust crate (src/src/*.rs) and proofs
about its specification claims.  Each embedded definition carries a doc
comment naming the source function it mirrors.  External calls into the
native HSA runtime (the generated `bindings` module) are modelled by
explicit environment records holding the answers the runtime would give.
-/

set_option autoImplicit false

namespace HsaRt

/-! Numeric constants mirrored from the generated `bindings` module.
Modelled from the spec: the `bindings` module is generated by build.rs
from hsa.h and is not under src/; these are the published hsa.h ABI
values referenced by the source. -/

def HSA_STATUS_SUCCESS : Nat := 0

def HSA_STATUS_INFO_BREAK : Nat := 1

def HSA_STATUS_ERROR_INVALID_ARGUMENT : Nat := 0x1001

def HSA_STATUS_ERROR_INVALID_QUEUE_CREATION : Nat := 0x1002

def HSA_STATUS_ERROR_INVALID_ALLOCATION : Nat := 0x1003

def HSA_STATUS_ERROR_INVALID_AGENT : Nat := 0x1004

def HSA_STATUS_ERROR_INVALID_REGION : Nat := 0x1005

def HSA_STATUS_ERROR_OUT_OF_RESOURCES : Nat := 0x1008

def HSA_STATUS_ERROR_NOT_INITIALIZED : Nat := 0x100B

def HSA_STATUS_ERROR_INCOMPATIBLE_ARGUMENTS : Nat := 0x100D

def HSA_STATUS_ERROR_INVALID_ISA : Nat := 0x100F

def HSA_STATUS_ERROR_INVALID_CODE_OBJECT : Nat := 0x1010

def HSA_STATUS_ERROR_INVALID_EXECUTABLE : Nat := 0x1011

def HSA_STATUS_ERROR_FROZEN_EXECUTABLE : Nat := 0x1012

def HSA_STATUS_ERROR_INVALID_SYMBOL_NAME : Nat := 0x1013

def HSA_STATUS_ERROR_VARIABLE_ALREADY_DEFINED : Nat := 0x1014

def HSA_STATUS_ERROR_VARIABLE_UNDEFINED : Nat := 0x1015

def HSA_STATUS_ERROR_INVALID_ISA_NAME : Nat := 0x1017

def HSA_STATUS_ERROR_FATAL : Nat := 0x1020

def HSA_DEVICE_TYPE_CPU : Nat := 0

def HSA_DEVICE_TYPE_GPU : Nat := 1

def HSA_DEVICE_TYPE_DSP : Nat := 2

def HSA_DEVICE_TYPE_AIE : Nat := 3

def HSA_REGION_SEGMENT_GLOBAL : Nat := 0

def HSA_REGION_SEGMENT_READONLY : Nat := 1

def HSA_REGION_SEGMENT_PRIVATE : Nat := 2

def HSA_REGION_SEGMENT_GROUP : Nat := 3

def HSA_REGION_SEGMENT_KERNARG : Nat := 4

def HSA_REGION_GLOBAL_FLAG_KERNARG : Nat := 1

def HSA_REGION_GLOBAL_FLAG_FINE_GRAINED : Nat := 2

def HSA_REGION_GLOBAL_FLAG_COARSE_GRAINED : Nat := 4

def HSA_PACKET_TYPE_KERNEL_DISPATCH : Nat := 2

def HSA_PACKET_HEADER_TYPE : Nat := 0

def HSA_PACKET_HEADER_SCACQUIRE_FENCE_SCOPE : Nat := 9

def HSA_PACKET_HEADER_SCRELEASE_FENCE_SCOPE : Nat := 11

def HSA_FENCE_SCOPE_SYSTEM : Nat := 2

def HSA_KERNEL_DISPATCH_PACKET_SETUP_DIMENSIONS : Nat := 0

def HSA_QUEUE_TYPE_MULTI : Nat := 0

/-- Hex rendering used by the Rust `0x{:x}` format specifier in messages. -/
def hexStr (n : Nat) : String :=
  String.mk (Nat.toDigits 16 n)

/-- `HsaError` from src/src/error.rs (the `thiserror` enum). -/
inductive HsaError where
  | InitializationFailed
  | ShutdownFailed
  | AgentNotFound
  | QueueCreationFailed (msg : String)
  | MemoryAllocationFailed (msg : String)
  | CodeObjectReaderFailed (msg : String)
  | CodeObjectLoadFailed (msg : String)
  | ExecutableCreationFailed (msg : String)
  | ExecutableFreezeFailed (msg : String)
  | KernelNotFound (msg : String)
  | ExecutionFailed (msg : String)
  | MemoryRegionNotFound
  | SignalOperationFailed (msg : String)
  | InvalidArgument (msg : String)
  | InvalidAgent (msg : String)
  | InvalidRegion (msg : String)
  | InvalidAllocation (msg : String)
  | InvalidCodeObject (msg : String)
  | InvalidExecutable (msg : String)
  | InvalidIsa (msg : String)
  | InvalidSymbolName (msg : String)
  | FrozenExecutable (msg : String)
  | VariableAlreadyDefined (msg : String)
  | VariableUndefined (msg : String)
  | IncompatibleArguments (msg : String)
  | OutOfResources (msg : String)
  | NotInitialized (msg : String)
  | Fatal (msg : String)
  | HsaStatus (status : Nat) (description : String)
  | StringConversionError
deriving DecidableEq, Repr

/-- `HsaError::from_status` (error.rs).  `statusString` models the native
`hsa_status_string` lookup performed by `get_status_string`. -/
def HsaError.from_status (statusString : Nat → String) (status : Nat) : HsaError :=
  let description := statusString status
  if status = HSA_STATUS_SUCCESS then .HsaStatus status description
  else if status = HSA_STATUS_ERROR_INVALID_ARGUMENT then .InvalidArgument description
  else if status = HSA_STATUS_ERROR_INVALID_QUEUE_CREATION then .QueueCreationFailed description
  else if status = HSA_STATUS_ERROR_INVALID_ALLOCATION then .InvalidAllocation description
  else if status = HSA_STATUS_ERROR_INVALID_AGENT then .InvalidAgent description
  else if status = HSA_STATUS_ERROR_INVALID_REGION then .InvalidRegion description
  else if status = HSA_STATUS_ERROR_OUT_OF_RESOURCES then .OutOfResources description
  else if status = HSA_STATUS_ERROR_NOT_INITIALIZED then .NotInitialized description
  else if status = HSA_STATUS_ERROR_INVALID_CODE_OBJECT then .InvalidCodeObject description
  else if status = HSA_STATUS_ERROR_INVALID_EXECUTABLE then .InvalidExecutable description
  else if status = HSA_STATUS_ERROR_FROZEN_EXECUTABLE then .FrozenExecutable description
  else if status = HSA_STATUS_ERROR_INVALID_SYMBOL_NAME then .InvalidSymbolName description
  else if status = HSA_STATUS_ERROR_VARIABLE_ALREADY_DEFINED then .VariableAlreadyDefined description
  else if status = HSA_STATUS_ERROR_VARIABLE_UNDEFINED then .VariableUndefined description
  else if status = HSA_STATUS_ERROR_INCOMPATIBLE_ARGUMENTS then .IncompatibleArguments description
  else if status = HSA_STATUS_ERROR_INVALID_ISA then .InvalidIsa description
  else if status = HSA_STATUS_ERROR_INVALID_ISA_NAME then .InvalidIsa description
  else if status = HSA_STATUS_ERROR_FATAL then .Fatal description
  else .HsaStatus status description

/-- The context-enriching `match` inside `HsaError::from_status_with_context`
(error.rs): the listed variants get `"{context}: {msg}"`, `HsaStatus` gets the
same treatment on its description, every other variant is left unchanged. -/
def HsaError.add_context (context : String) : HsaError → HsaError
  | .InvalidArgument msg => .InvalidArgument (context ++ ": " ++ msg)
  | .QueueCreationFailed msg => .QueueCreationFailed (context ++ ": " ++ msg)
  | .InvalidAllocation msg => .InvalidAllocation (context ++ ": " ++ msg)
  | .InvalidAgent msg => .InvalidAgent (context ++ ": " ++ msg)
  | .InvalidRegion msg => .InvalidRegion (context ++ ": " ++ msg)
  | .OutOfResources msg => .OutOfResources (context ++ ": " ++ msg)
  | .NotInitialized msg => .NotInitialized (context ++ ": " ++ msg)
  | .InvalidCodeObject msg => .InvalidCodeObject (context ++ ": " ++ msg)
  | .InvalidExecutable msg => .InvalidExecutable (context ++ ": " ++ msg)
  | .FrozenExecutable msg => .FrozenExecutable (context ++ ": " ++ msg)
  | .InvalidSymbolName msg => .InvalidSymbolName (context ++ ": " ++ msg)
  | .VariableAlreadyDefined msg => .VariableAlreadyDefined (context ++ ": " ++ msg)
  | .VariableUndefined msg => .VariableUndefined (context ++ ": " ++ msg)
  | .IncompatibleArguments msg => .IncompatibleArguments (context ++ ": " ++ msg)
  | .InvalidIsa msg => .InvalidIsa (context ++ ": " ++ msg)
  | .Fatal msg => .Fatal (context ++ ": " ++ msg)
  | .HsaStatus status description => .HsaStatus status (context ++ ": " ++ description)
  | e => e

/-- `HsaError::from_status_with_context` (error.rs). -/
def HsaError.from_status_with_context (statusString : Nat → String) (status : Nat)
    (context : String) : HsaError :=
  (HsaError.from_status statusString status).add_context context

/-- The `Display` rendering of `HsaError` given by the `#[error(...)]`
attributes in error.rs; the source calls it via `error.to_string()`. -/
def HsaError.toMessage : HsaError → String
  | .InitializationFailed => "HSA initialization failed"
  | .ShutdownFailed => "HSA shutdown failed"
  | .AgentNotFound => "No GPU agent found"
  | .QueueCreationFailed msg => "Queue creation failed: " ++ msg
  | .MemoryAllocationFailed msg => "Memory allocation failed: " ++ msg
  | .CodeObjectReaderFailed msg => "Code object reader creation failed: " ++ msg
  | .CodeObjectLoadFailed msg => "Code object load failed: " ++ msg
  | .ExecutableCreationFailed msg => "Executable creation failed: " ++ msg
  | .ExecutableFreezeFailed msg => "Executable freeze failed: " ++ msg
  | .KernelNotFound msg => "Kernel not found: " ++ msg
  | .ExecutionFailed msg => "Kernel execution failed: " ++ msg
  | .MemoryRegionNotFound => "Required memory region not found"
  | .SignalOperationFailed msg => "Signal operation failed: " ++ msg
  | .InvalidArgument msg => "Invalid argument: " ++ msg
  | .InvalidAgent msg => "Invalid agent: " ++ msg
  | .InvalidRegion msg => "Invalid region: " ++ msg
  | .InvalidAllocation msg => "Invalid allocation: " ++ msg
  | .InvalidCodeObject msg => "Invalid code object: " ++ msg
  | .InvalidExecutable msg => "Invalid executable: " ++ msg
  | .InvalidIsa msg => "Invalid ISA: " ++ msg
  | .InvalidSymbolName msg => "Invalid symbol name: " ++ msg
  | .FrozenExecutable msg => "Frozen executable: " ++ msg
  | .VariableAlreadyDefined msg => "Variable already defined: " ++ msg
  | .VariableUndefined msg => "Variable undefined: " ++ msg
  | .IncompatibleArguments msg => "Incompatible arguments: " ++ msg
  | .OutOfResources msg => "Out of resources: " ++ msg
  | .NotInitialized msg => "Runtime not initialized: " ++ msg
  | .Fatal msg => "Fatal HSA error: " ++ msg
  | .HsaStatus status description => s!"HSA error {status}: {description}"
  | .StringConversionError => "String conversion error"

/-- `Result<T>` alias from error.rs. -/
abbrev HsaResult (α : Type) := Except HsaError α

/-- Rust `Result::unwrap_or`. -/
def unwrapOr {α : Type} (r : HsaResult α) (default : α) : α :=
  match r with
  | .ok a => a
  | .error _ => default

def U32_MAX : Nat := 2 ^ 32 - 1

/-- `Agent` (agent.rs): a copyable wrapper around the opaque `hsa_agent_t`
handle. -/
structure Agent where
  handle : Nat
deriving DecidableEq, Repr

/-- The answers the native runtime gives to the two agent queue-size queries
used by `Queue::create`: the results of `Agent::get_queue_min_size` and
`Agent::get_queue_max_size` (agent.rs). -/
structure AgentQueueEnv where
  get_queue_min_size : HsaResult Nat
  get_queue_max_size : HsaResult Nat

/-- The behaviour of the native runtime during `Queue::create`: the status
returned by `hsa_queue_create` and the queue pointer it writes back
(0 models a null pointer). -/
structure QueueCreateEnv where
  statusString : Nat → String
  queue_create_status : Nat
  queue_create_ptr : Nat

/-- Outcome of `Queue::create`: the returned `Result` (carrying the queue
pointer on success) together with whether the underlying `hsa_queue_create`
ring-creation call was issued at all. -/
structure QueueCreateResult where
  result : HsaResult Nat
  ringCreateRequested : Bool
deriving Repr

/-- `Queue::create` (queue.rs lines 11-86): validates that `size` is a
nonzero power of two via `size == 0 || (size & (size - 1)) != 0`, reads the
agent's queue size bounds with `unwrap_or(1)` / `unwrap_or(u32::MAX)`
defaults, checks `size` against them, and only then requests ring creation
from the native runtime, translating a failing status and rejecting a null
queue pointer. -/
def Queue.create (env : QueueCreateEnv) (agent : Agent) (aq : AgentQueueEnv)
    (size : Nat) : QueueCreateResult :=
  if size = 0 ∨ size &&& (size - 1) ≠ 0 then
    { result := .error (.QueueCreationFailed
        s!"Queue size {size} must be a power of 2 and greater than 0"),
      ringCreateRequested := false }
  else
    let min_size := unwrapOr aq.get_queue_min_size 1
    let max_size := unwrapOr aq.get_queue_max_size U32_MAX
    if size < min_size then
      { result := .error (.QueueCreationFailed
          s!"Queue size {size} is below minimum {min_size} for this agent"),
        ringCreateRequested := false }
    else if size > max_size then
      { result := .error (.QueueCreationFailed
          s!"Queue size {size} exceeds maximum {max_size} for this agent"),
        ringCreateRequested := false }
    else if env.queue_create_status ≠ HSA_STATUS_SUCCESS then
      { result := .error (.QueueCreationFailed
          (HsaError.from_status_with_context env.statusString env.queue_create_status
            s!"Failed to create queue with size {size} for agent 0x{hexStr agent.handle}").toMessage),
        ringCreateRequested := true }
    else if env.queue_create_ptr = 0 then
      { result := .error (.QueueCreationFailed "Queue creation returned null pointer"),
        ringCreateRequested := true }
    else
      { result := .ok env.queue_create_ptr,
        ringCreateRequested := true }

deriving instance DecidableEq for Except

/-- `hsa_kernel_dispatch_packet_t` as touched by `KernelDispatch::dispatch`
(executable.rs); field values are modelled as naturals. -/
structure Packet where
  header : Nat
  setup : Nat
  workgroup_size_x : Nat
  workgroup_size_y : Nat
  workgroup_size_z : Nat
  grid_size_x : Nat
  grid_size_y : Nat
  grid_size_z : Nat
  private_segment_size : Nat
  group_segment_size : Nat
  kernel_object : Nat
  kernarg_address : Nat
  completion_signal : Nat
deriving DecidableEq, Repr

/-- The `std::ptr::write_bytes(packet_ptr, 0, 1)` zero-clear step. -/
def Packet.zero : Packet :=
  ⟨0, 0, 0, 0, 0, 0, 0, 0, 0, 0, 0, 0, 0⟩

/-- Names of the packet fields assigned by `KernelDispatch::dispatch`. -/
inductive PacketField where
  | header
  | setup
  | workgroup_size_x
  | workgroup_size_y
  | workgroup_size_z
  | grid_size_x
  | grid_size_y
  | grid_size_z
  | kernel_object
  | kernarg_address
  | private_segment_size
  | group_segment_size
  | completion_signal
deriving DecidableEq, Repr

/-- A single `packet_ptr.field = value` store. -/
def Packet.setField (p : Packet) : PacketField → Nat → Packet
  | .header, v => { p with header := v }
  | .setup, v => { p with setup := v }
  | .workgroup_size_x, v => { p with workgroup_size_x := v }
  | .workgroup_size_y, v => { p with workgroup_size_y := v }
  | .workgroup_size_z, v => { p with workgroup_size_z := v }
  | .grid_size_x, v => { p with grid_size_x := v }
  | .grid_size_y, v => { p with grid_size_y := v }
  | .grid_size_z, v => { p with grid_size_z := v }
  | .kernel_object, v => { p with kernel_object := v }
  | .kernarg_address, v => { p with kernarg_address := v }
  | .private_segment_size, v => { p with private_segment_size := v }
  | .group_segment_size, v => { p with group_segment_size := v }
  | .completion_signal, v => { p with completion_signal := v }

def Packet.applyWrites (p : Packet) : List (PacketField × Nat) → Packet
  | [] => p
  | (f, v) :: rest => (p.setField f v).applyWrites rest

/-- `Signal` (signal.rs): owning wrapper of the `hsa_signal_t` handle. -/
structure Signal where
  handle : Nat
deriving DecidableEq, Repr

/-- `KernelDispatch` (executable.rs lines 356-363). -/
structure KernelDispatch where
  kernel_object : Nat
  kernarg_address : Nat
  workgroup_size : Nat × Nat × Nat
  grid_size : Nat × Nat × Nat
  private_segment_size : Nat
  group_segment_size : Nat
deriving DecidableEq, Repr

/-- The `dimensions` computation in `KernelDispatch::dispatch`
(executable.rs lines 394-401): 3 if `grid_size.2 > 1`, else 2 if
`grid_size.1 > 1`, else 1. -/
def KernelDispatch.dimensions (d : KernelDispatch) : Nat :=
  if d.grid_size.2.2 > 1 then 3
  else if d.grid_size.2.1 > 1 then 2
  else 1

/-- The header word assembled in `KernelDispatch::dispatch`
(executable.rs lines 409-414). -/
def dispatchHeaderWord : Nat :=
  (HSA_PACKET_TYPE_KERNEL_DISPATCH <<< HSA_PACKET_HEADER_TYPE) |||
  (HSA_FENCE_SCOPE_SYSTEM <<< HSA_PACKET_HEADER_SCACQUIRE_FENCE_SCOPE) |||
  (HSA_FENCE_SCOPE_SYSTEM <<< HSA_PACKET_HEADER_SCRELEASE_FENCE_SCOPE)

/-- The field stores issued by `KernelDispatch::dispatch` into the
zero-cleared packet slot, in the exact source order of executable.rs
lines 406-429. -/
def KernelDispatch.fieldWrites (d : KernelDispatch) (completion_signal : Signal) :
    List (PacketField × Nat) :=
  [ (.setup, d.dimensions <<< HSA_KERNEL_DISPATCH_PACKET_SETUP_DIMENSIONS),
    (.header, dispatchHeaderWord),
    (.workgroup_size_x, d.workgroup_size.1),
    (.workgroup_size_y, d.workgroup_size.2.1),
    (.workgroup_size_z, d.workgroup_size.2.2),
    (.grid_size_x, d.grid_size.1),
    (.grid_size_y, d.grid_size.2.1),
    (.grid_size_z, d.grid_size.2.2),
    (.kernel_object, d.kernel_object),
    (.kernarg_address, d.kernarg_address),
    (.private_segment_size, d.private_segment_size),
    (.group_segment_size, d.group_segment_size),
    (.completion_signal, completion_signal.handle) ]

/-- The packet content after the zero-clear and all field stores. -/
def KernelDispatch.finalPacket (d : KernelDispatch) (completion_signal : Signal) : Packet :=
  Packet.zero.applyWrites (d.fieldWrites completion_signal)

/-- Header value observable after the zero-clear and the first `n` field
stores of the construction sequence. -/
def KernelDispatch.headerAfter (d : KernelDispatch) (completion_signal : Signal)
    (n : Nat) : Nat :=
  (Packet.zero.applyWrites ((d.fieldWrites completion_signal).take n)).header

def U64_MOD : Nat := 2 ^ 64

/-- Mutable state of the native `hsa_queue_t` as observed through the
`Queue` wrapper: ring capacity (`size`), the 64-bit write index, the ring
slot contents and the value last stored to the doorbell signal. -/
structure QueueState where
  size : Nat
  write_index : Nat
  slots : Nat → Packet
  doorbell : Nat

/-- `Queue::add_write_index` (queue.rs lines 96-105): wraps the native
atomic fetch-add `hsa_queue_add_write_index_relaxed` and returns the
pre-increment value. -/
def Queue.add_write_index (q : QueueState) (value : Nat) : Nat × QueueState :=
  (q.write_index, { q with write_index := (q.write_index + value) % U64_MOD })

/-- `Queue::store_write_index` (queue.rs lines 107-112). -/
def Queue.store_write_index (q : QueueState) (value : Nat) : QueueState :=
  { q with write_index := value % U64_MOD }

/-- Observable steps of `KernelDispatch::dispatch` against the queue. -/
inductive DispatchEvent where
  | addWriteIndex (value ret : Nat)
  | packetWrite (slot : Nat) (p : Packet)
  | storeWriteIndex (value : Nat)
  | doorbellStore (value : Nat)
deriving DecidableEq, Repr

/-- `KernelDispatch::dispatch` (executable.rs lines 366-448): reserve one
slot via `add_write_index(1)`, locate the packet at
`packet_id % queue.size`, zero it, populate it, publish via
`store_write_index(packet_id + 1)` and ring the doorbell with `packet_id`. -/
def KernelDispatch.dispatch (d : KernelDispatch) (q : QueueState)
    (completion_signal : Signal) : QueueState × List DispatchEvent :=
  let r := Queue.add_write_index q 1
  let packet_id := r.1
  let q1 := r.2
  let slot := packet_id % q1.size
  let p := d.finalPacket completion_signal
  let q2 := { q1 with slots := fun i => if i = slot then p else q1.slots i }
  let q3 := Queue.store_write_index q2 ((packet_id + 1) % U64_MOD)
  let q4 := { q3 with doorbell := packet_id }
  (q4,
   [ .addWriteIndex 1 packet_id,
     .packetWrite slot p,
     .storeWriteIndex ((packet_id + 1) % U64_MOD),
     .doorbellStore packet_id ])

/-- Concrete dispatch request used as the failing input for the header
write-order bug (the example launches a 64-thread kernel). -/
def exampleDispatch : KernelDispatch :=
  { kernel_object := 0x1234
    kernarg_address := 0x2000
    workgroup_size := (64, 1, 1)
    grid_size := (64, 1, 1)
    private_segment_size := 0
    group_segment_size := 0 }

def exampleSignal : Signal :=
  ⟨0xabc⟩

/-- A memory region as seen through the `MemoryRegion` query wrappers
(memory.rs): the answers to `runtime_alloc_allowed()` and
`max_alloc_size()`, plus the region handle. -/
structure MemoryRegionEnv where
  handle : Nat
  runtime_alloc_allowed : HsaResult Bool
  max_alloc_size : HsaResult Nat

/-- The native allocator's behaviour during `MemoryRegion::allocate`:
status of `hsa_memory_allocate` and the address it writes back. -/
structure AllocateEnv where
  statusString : Nat → String
  memory_allocate_status : Nat
  memory_allocate_ptr : Nat

/-- `Memory` (memory.rs lines 158-162). -/
structure Memory where
  ptr : Nat
  size : Nat
deriving DecidableEq, Repr

/-- Calls issued to the native runtime by the memory wrappers. -/
inductive RuntimeCall where
  | memoryAllocate (region : Nat) (size : Nat)
  | agentsAllowAccess (agents : List Nat) (ptr : Nat)
deriving DecidableEq, Repr

/-- Outcome of `MemoryRegion::allocate`: the returned `Result` and the
native calls issued. -/
structure AllocateOutcome where
  result : HsaResult Memory
  calls : List RuntimeCall
deriving DecidableEq

/-- `MemoryRegion::allocate` (memory.rs lines 109-155): reject when the
region disallows runtime allocation, then when `size` exceeds the region's
max allocation size, then request the bytes from the native allocator and
translate a failing status. -/
def MemoryRegion.allocate (env : AllocateEnv) (self : MemoryRegionEnv)
    (size : Nat) : AllocateOutcome :=
  match self.runtime_alloc_allowed with
  | .error e => ⟨.error e, []⟩
  | .ok allowed =>
    if !allowed then
      ⟨.error (.MemoryAllocationFailed "Runtime allocation not allowed for this memory region"), []⟩
    else
      match self.max_alloc_size with
      | .error e => ⟨.error e, []⟩
      | .ok max_size =>
        if size > max_size then
          ⟨.error (.MemoryAllocationFailed
            s!"Requested size {size} exceeds maximum allocation size {max_size} for this region"), []⟩
        else if env.memory_allocate_status ≠ HSA_STATUS_SUCCESS then
          ⟨.error (.MemoryAllocationFailed
            (HsaError.from_status_with_context env.statusString env.memory_allocate_status
              s!"Failed to allocate {size} bytes from memory region").toMessage),
           [.memoryAllocate self.handle size]⟩
        else
          ⟨.ok ⟨env.memory_allocate_ptr, size⟩, [.memoryAllocate self.handle size]⟩

/-- The native runtime's answer to `hsa_amd_agents_allow_access`. -/
structure AllowAccessEnv where
  statusString : Nat → String
  allow_access_status : Nat

/-- Outcome of `Memory::allow_access`: the returned `Result` and the native
calls issued. -/
structure AllowAccessOutcome where
  result : HsaResult Unit
  calls : List RuntimeCall
deriving DecidableEq

/-- `Memory::allow_access` (memory.rs lines 177-209): immediate success
without any native call when `agents` is empty; otherwise one
`hsa_amd_agents_allow_access` call over exactly the listed agent handles,
with a translated error when its status is not success. -/
def Memory.allow_access (env : AllowAccessEnv) (self : Memory)
    (agents : List Agent) : AllowAccessOutcome :=
  if agents.isEmpty then
    ⟨.ok (), []⟩
  else if env.allow_access_status ≠ HSA_STATUS_SUCCESS then
    ⟨.error (HsaError.from_status_with_context env.statusString env.allow_access_status
      "Failed to allow memory access for agents"),
     [.agentsAllowAccess (agents.map Agent.handle) self.ptr]⟩
  else
    ⟨.ok (), [.agentsAllowAccess (agents.map Agent.handle) self.ptr]⟩

/-- The native runtime's behaviour during `Signal::create`: status of
`hsa_signal_create` and the handle it writes back. -/
structure SignalCreateEnv where
  statusString : Nat → String
  signal_create_status : Nat
  signal_create_handle : Nat

/-- `Signal::create` (signal.rs lines 11-47): a failing status is wrapped
in `SignalOperationFailed`; a success that reported handle 0 is rejected
with `SignalOperationFailed` as well. -/
def Signal.create (env : SignalCreateEnv) (initial_value : Int) : HsaResult Signal :=
  if env.signal_create_status ≠ HSA_STATUS_SUCCESS then
    .error (.SignalOperationFailed
      (HsaError.from_status_with_context env.statusString env.signal_create_status
        s!"Failed to create signal with initial value {initial_value}").toMessage)
  else if env.signal_create_handle = 0 then
    .error (.SignalOperationFailed "Signal creation returned invalid handle (0)")
  else
    .ok ⟨env.signal_create_handle⟩

/-- `Drop for Signal` (signal.rs lines 250-265): the handles passed to
`hsa_signal_destroy` during the single drop of the value. -/
def Signal.dropDestroyCalls (s : Signal) : List Nat :=
  if s.handle ≠ 0 then [s.handle] else []

/-- One agent as presented by native enumeration: its handle and the
answer the runtime gives to the `HSA_AGENT_INFO_DEVICE` query issued by
`find_gpu_callback` (an `error` carries the failing status code). -/
structure EnumAgent where
  handle : Nat
  device_query : Except Nat Nat
deriving DecidableEq, Repr

/-- `find_gpu_callback` (agent.rs lines 374-402): on a failed device query
it propagates that status; on a GPU it stores the agent handle into the
output slot and returns `HSA_STATUS_INFO_BREAK`; otherwise it returns
`HSA_STATUS_SUCCESS` leaving the slot untouched. -/
def find_gpu_callback (a : EnumAgent) (slot : Nat) : Nat × Nat :=
  match a.device_query with
  | .error st => (st, slot)
  | .ok dt =>
    if dt = HSA_DEVICE_TYPE_GPU then (HSA_STATUS_INFO_BREAK, a.handle)
    else (HSA_STATUS_SUCCESS, slot)

/-- Modelled from the spec: `hsa_iterate_agents` (generated `bindings`
module, not under src/) is the native short-circuiting visitor — it invokes
the callback per agent in order, stops at the first status other than
`HSA_STATUS_SUCCESS` and returns that status.  The result is
(status, final slot value, number of agents visited). -/
def hsa_iterate_agents : List EnumAgent → Nat → Nat × Nat × Nat
  | [], slot => (HSA_STATUS_SUCCESS, slot, 0)
  | a :: rest, slot =>
    let r := find_gpu_callback a slot
    if r.1 ≠ HSA_STATUS_SUCCESS then (r.1, r.2, 1)
    else
      let r2 := hsa_iterate_agents rest r.2
      (r2.1, r2.2.1, r2.2.2 + 1)

/-- `Agent::find_gpu` (agent.rs lines 20-52), instrumented with the number
of agents visited by the enumeration. -/
def Agent.find_gpu (statusString : Nat → String) (agents : List EnumAgent) :
    HsaResult Agent × Nat :=
  let r := hsa_iterate_agents agents 0
  if r.1 ≠ HSA_STATUS_SUCCESS ∧ r.1 ≠ HSA_STATUS_INFO_BREAK then
    (.error (HsaError.from_status_with_context statusString r.1 "Failed to iterate agents"), r.2.2)
  else if r.2.1 = 0 then
    (.error .AgentNotFound, r.2.2)
  else
    (.ok ⟨r.2.1⟩, r.2.2)

/-- Whether `find_gpu_callback` would classify this agent as the GPU. -/
def EnumAgent.isGpu (a : EnumAgent) : Bool :=
  a.device_query == .ok HSA_DEVICE_TYPE_GPU

/-- A memory region as seen through the wrappers used by
`HsaContext::new`: the answers to `segment()` and `global_flags()`. -/
structure RegionInfo where
  handle : Nat
  segment : HsaResult Nat
  global_flags : HsaResult Nat
deriving DecidableEq, Repr

/-- The classification accumulator of `HsaContext::new` (context.rs). -/
structure ClassifiedRegions where
  kernarg_region : Option RegionInfo
  fine_grained_region : Option RegionInfo
  coarse_grained_region : Option RegionInfo
deriving DecidableEq, Repr

/-- The region-classification loop of `HsaContext::new` (context.rs lines
23-41): KERNARG-segment regions fill the kernarg slot; GLOBAL regions go to
the fine-grained slot exactly when `HSA_REGION_GLOBAL_FLAG_FINE_GRAINED` is
set and to the coarse-grained slot otherwise; all other segments are
skipped; `?` propagates query errors. -/
def classifyRegions : List RegionInfo → ClassifiedRegions → HsaResult ClassifiedRegions
  | [], acc => .ok acc
  | r :: rest, acc =>
    match r.segment with
    | .error e => .error e
    | .ok seg =>
      if seg = HSA_REGION_SEGMENT_KERNARG then
        classifyRegions rest { acc with kernarg_region := some r }
      else if seg = HSA_REGION_SEGMENT_GLOBAL then
        match r.global_flags with
        | .error e => .error e
        | .ok flags =>
          if flags &&& HSA_REGION_GLOBAL_FLAG_FINE_GRAINED ≠ 0 then
            classifyRegions rest { acc with fine_grained_region := some r }
          else
            classifyRegions rest { acc with coarse_grained_region := some r }
      else
        classifyRegions rest acc

/-- `HsaContext` (context.rs lines 4-10); the queue is modelled by its
pointer. -/
structure HsaContextModel where
  agent : Agent
  queue : Option Nat
  kernarg_region : Option RegionInfo
  fine_grained_region : Option RegionInfo
  coarse_grained_region : Option RegionInfo
deriving DecidableEq, Repr

/-- Everything the native runtime feeds into `HsaContext::new`. -/
structure ContextEnv where
  statusString : Nat → String
  init_status : Nat
  agents : List EnumAgent
  regions : HsaResult (List RegionInfo)
  agent_queue : AgentQueueEnv
  queue_env : QueueCreateEnv

/-- `HsaContext::new` (context.rs lines 13-55): init, find the GPU agent,
iterate and classify its memory regions, require the coarse-grained and
then the fine-grained GLOBAL region (kernarg stays optional), and create a
queue of size 1024. -/
def HsaContext.new (env : ContextEnv) : HsaResult HsaContextModel := do
  if env.init_status ≠ HSA_STATUS_SUCCESS then
    throw (HsaError.from_status env.statusString env.init_status)
  let agent ← (Agent.find_gpu env.statusString env.agents).1
  let regions ← env.regions
  let cls ← classifyRegions regions ⟨none, none, none⟩
  let coarse ← match cls.coarse_grained_region with
    | some c => Except.ok c
    | none => Except.error HsaError.MemoryRegionNotFound
  let fine ← match cls.fine_grained_region with
    | some f => Except.ok f
    | none => Except.error HsaError.MemoryRegionNotFound
  let queue ← (Queue.create env.queue_env agent env.agent_queue 1024).result
  Except.ok ⟨agent, some queue, cls.kernarg_region, some fine, some coarse⟩

/-- A dispatch request with workgroup (1,1,1) and the given grid, used to
evaluate the dimension encoding at the spec's sample grids. -/
def gridDispatch (g : Nat × Nat × Nat) : KernelDispatch :=
  { kernel_object := 0
    kernarg_address := 0
    workgroup_size := (1, 1, 1)
    grid_size := g
    private_segment_size := 0
    group_segment_size := 0 }

/-! ## Theorems -/

/-- C1 (refuting the claimed write order, executable.rs lines 406-429): at
the concrete example dispatch, the field-store sequence of
`KernelDispatch::dispatch` writes the header as the second store —
immediately after `setup` and before the workgroup sizes, grid sizes,
kernel object, kernarg address, segment sizes and the completion signal —
so the header is not the final field written, and after the first two
stores the header already holds the nonzero "kernel dispatch" header word
while eleven field stores are still outstanding. -/
theorem dispatch_header_written_second_not_last :
    (exampleDispatch.fieldWrites exampleSignal).map Prod.fst =
      [.setup, .header, .workgroup_size_x, .workgroup_size_y, .workgroup_size_z,
       .grid_size_x, .grid_size_y, .grid_size_z, .kernel_object, .kernarg_address,
       .private_segment_size, .group_segment_size, .completion_signal] ∧
    exampleDispatch.headerAfter exampleSignal 2 = dispatchHeaderWord ∧
    dispatchHeaderWord ≠ 0 := by
  refine ⟨rfl, rfl, ?_⟩
  decide

/-- C2: for every dispatch request the encoded dimensions value is 3 if
`grid.z > 1`, else 2 if `grid.y > 1`, else 1, and the constructed packet's
setup field carries it at the `DIMENSIONS` bit offset; the sample grids
(1,1,1), (64,1,1), (64,64,1), (64,64,64) yield 1, 1, 2, 3. -/
theorem dispatch_dimensions_encoding :
    (∀ (d : KernelDispatch) (sig : Signal),
      d.dimensions =
        (if d.grid_size.2.2 > 1 then 3 else if d.grid_size.2.1 > 1 then 2 else 1) ∧
      (d.finalPacket sig).setup =
        d.dimensions <<< HSA_KERNEL_DISPATCH_PACKET_SETUP_DIMENSIONS) ∧
    (gridDispatch (1, 1, 1)).dimensions = 1 ∧
    (gridDispatch (64, 1, 1)).dimensions = 1 ∧
    (gridDispatch (64, 64, 1)).dimensions = 2 ∧
    (gridDispatch (64, 64, 64)).dimensions = 3 :=
  ⟨fun _ _ => ⟨rfl, rfl⟩, by decide, by decide, by decide, by decide⟩

/-- C6: `Queue::add_write_index` returns the pre-increment write index;
`KernelDispatch::dispatch` then writes the packet into physical slot
(reserved index mod queue capacity), publishes via
`store_write_index(reserved + 1)` and only afterwards rings the doorbell
with the reserved slot index. -/
theorem dispatch_reserve_publish_doorbell
    (d : KernelDispatch) (q : QueueState) (sig : Signal) :
    Queue.add_write_index q 1 =
      (q.write_index, { q with write_index := (q.write_index + 1) % U64_MOD }) ∧
    (d.dispatch q sig).2 =
      [ .addWriteIndex 1 q.write_index,
        .packetWrite (q.write_index % q.size) (d.finalPacket sig),
        .storeWriteIndex ((q.write_index + 1) % U64_MOD),
        .doorbellStore q.write_index ] ∧
    ((d.dispatch q sig).1).doorbell = q.write_index :=
  ⟨rfl, rfl, rfl⟩

/-- C4: `MemoryRegion::allocate` fails with `MemoryAllocationFailed` when
the region disallows runtime allocation, fails with the distinct
size-exceeded `MemoryAllocationFailed` message when `size` exceeds the
region's max allocation size, and otherwise (underlying allocator
succeeding) returns a `Memory` of the requested size while issuing only the
allocation call — in particular no access-grant call. -/
theorem memory_allocate_bounds
    (env : AllocateEnv) (region : MemoryRegionEnv) (size maxv : Nat) :
    (region.runtime_alloc_allowed = .ok false →
      MemoryRegion.allocate env region size =
        ⟨.error (.MemoryAllocationFailed
          "Runtime allocation not allowed for this memory region"), []⟩) ∧
    (region.runtime_alloc_allowed = .ok true →
     region.max_alloc_size = .ok maxv →
     maxv < size →
      MemoryRegion.allocate env region size =
        ⟨.error (.MemoryAllocationFailed
          s!"Requested size {size} exceeds maximum allocation size {maxv} for this region"),
         []⟩) ∧
    (region.runtime_alloc_allowed = .ok true →
     region.max_alloc_size = .ok maxv →
     size ≤ maxv →
     env.memory_allocate_status = HSA_STATUS_SUCCESS →
      MemoryRegion.allocate env region size =
        ⟨.ok ⟨env.memory_allocate_ptr, size⟩, [.memoryAllocate region.handle size]⟩) := by
  refine ⟨?_, ?_, ?_⟩
  · intro h1
    simp [MemoryRegion.allocate, h1]
  · intro h1 h2 h3
    simp [MemoryRegion.allocate, h1, h2, h3]
  · intro h1 h2 h3 h4
    simp [MemoryRegion.allocate, h1, h2, Nat.not_lt.mpr h3, h4]

/-- C4 witness: with a mock region reporting max allocation size 1024 and a
succeeding allocator, a request of 1024 succeeds with a `Memory` of size
1024 (allocation call only), and a request of 1025 fails with the
size-exceeded `MemoryAllocationFailed` error before any native call. -/
theorem memory_allocate_bounds_witness :
    MemoryRegion.allocate ⟨fun _ => "", HSA_STATUS_SUCCESS, 0x4000⟩
        ⟨1, .ok true, .ok 1024⟩ 1024 =
      ⟨.ok ⟨0x4000, 1024⟩, [.memoryAllocate 1 1024]⟩ ∧
    (∃ msg, MemoryRegion.allocate ⟨fun _ => "", HSA_STATUS_SUCCESS, 0x4000⟩
        ⟨1, .ok true, .ok 1024⟩ 1025 =
      ⟨.error (.MemoryAllocationFailed msg), []⟩) :=
  ⟨(memory_allocate_bounds _ _ 1024 1024).2.2 rfl rfl (by decide) rfl,
   ⟨_, (memory_allocate_bounds _ _ 1025 1024).2.1 rfl rfl (by decide)⟩⟩

/-- C7: `Memory::allow_access` with an empty agent list succeeds without
any native call; with a non-empty list it issues exactly one
`hsa_amd_agents_allow_access` call over exactly the listed agent handles,
succeeding when the native status is success and returning the translated
error exactly when it is not. -/
theorem allow_access_empty_noop_and_exact
    (env : AllowAccessEnv) (self : Memory) (agents : List Agent) :
    (agents = [] → Memory.allow_access env self agents = ⟨.ok (), []⟩) ∧
    (agents ≠ [] →
      (Memory.allow_access env self agents).calls =
        [.agentsAllowAccess (agents.map Agent.handle) self.ptr] ∧
      (env.allow_access_status = HSA_STATUS_SUCCESS →
        Memory.allow_access env self agents =
          ⟨.ok (), [.agentsAllowAccess (agents.map Agent.handle) self.ptr]⟩) ∧
      (env.allow_access_status ≠ HSA_STATUS_SUCCESS →
        Memory.allow_access env self agents =
          ⟨.error (HsaError.from_status_with_context env.statusString
              env.allow_access_status "Failed to allow memory access for agents"),
           [.agentsAllowAccess (agents.map Agent.handle) self.ptr]⟩)) := by
  constructor
  · rintro rfl
    rfl
  · intro hne
    have hem : agents.isEmpty = false := by
      cases agents with
      | nil => exact absurd rfl hne
      | cons a t => rfl
    refine ⟨?_, ?_, ?_⟩
    · by_cases hs : env.allow_access_status = HSA_STATUS_SUCCESS
      · simp [Memory.allow_access, hem, hs]
      · simp [Memory.allow_access, hem, hs]
    · intro hs
      simp [Memory.allow_access, hem, hs]
    · intro hs
      simp [Memory.allow_access, hem, hs]

/-- C7 witness: on a concrete allocation, the empty list is a no-op
success; the one-agent list issues exactly one grant call for that agent,
succeeding under a success status and failing with the translated error
under status `HSA_STATUS_ERROR_INVALID_AGENT`. -/
theorem allow_access_empty_noop_and_exact_witness :
    Memory.allow_access ⟨fun _ => "", HSA_STATUS_SUCCESS⟩ ⟨16, 64⟩ [] = ⟨.ok (), []⟩ ∧
    Memory.allow_access ⟨fun _ => "", HSA_STATUS_SUCCESS⟩ ⟨16, 64⟩ [⟨3⟩] =
      ⟨.ok (), [.agentsAllowAccess [3] 16]⟩ ∧
    Memory.allow_access ⟨fun _ => "e", HSA_STATUS_ERROR_INVALID_AGENT⟩ ⟨16, 64⟩ [⟨3⟩] =
      ⟨.error (HsaError.from_status_with_context (fun _ => "e")
          HSA_STATUS_ERROR_INVALID_AGENT "Failed to allow memory access for agents"),
       [.agentsAllowAccess [3] 16]⟩ :=
  ⟨(allow_access_empty_noop_and_exact ⟨fun _ => "", HSA_STATUS_SUCCESS⟩ ⟨16, 64⟩ []).1 rfl,
   ((allow_access_empty_noop_and_exact ⟨fun _ => "", HSA_STATUS_SUCCESS⟩ ⟨16, 64⟩
      [⟨3⟩]).2 (List.cons_ne_nil _ _)).2.1 rfl,
   ((allow_access_empty_noop_and_exact ⟨fun _ => "e", HSA_STATUS_ERROR_INVALID_AGENT⟩ ⟨16, 64⟩
      [⟨3⟩]).2 (List.cons_ne_nil _ _)).2.2 (by decide)⟩

/-- C8: a constructed `Signal` always carries a nonzero handle —
`Signal::create` turns a runtime-reported zero handle into a
`SignalOperationFailed` error — and the single drop of a `Signal` passes
a nonzero handle to `hsa_signal_destroy` exactly once while a zero handle
is never destroyed. -/
theorem signal_nonzero_handle_and_single_destroy :
    (∀ (env : SignalCreateEnv) (v : Int) (s : Signal),
       Signal.create env v = .ok s → s.handle ≠ 0) ∧
    (∀ (env : SignalCreateEnv) (v : Int),
       env.signal_create_status = HSA_STATUS_SUCCESS →
       env.signal_create_handle = 0 →
       Signal.create env v =
         .error (.SignalOperationFailed "Signal creation returned invalid handle (0)")) ∧
    (∀ s : Signal, s.handle ≠ 0 → Signal.dropDestroyCalls s = [s.handle]) ∧
    (∀ s : Signal, s.handle = 0 → Signal.dropDestroyCalls s = []) := by
  refine ⟨?_, ?_, ?_, ?_⟩
  · intro env v s h
    unfold Signal.create at h
    by_cases h1 : env.signal_create_status ≠ HSA_STATUS_SUCCESS
    · rw [if_pos h1] at h
      exact Except.noConfusion h
    · rw [if_neg h1] at h
      by_cases h2 : env.signal_create_handle = 0
      · rw [if_pos h2] at h
        exact Except.noConfusion h
      · rw [if_neg h2] at h
        cases h
        exact h2
  · intro env v h1 h2
    unfold Signal.create
    rw [if_neg (fun hc => hc h1), if_pos h2]
  · intro s h
    unfold Signal.dropDestroyCalls
    rw [if_pos h]
  · intro s h
    unfold Signal.dropDestroyCalls
    rw [if_neg (fun hc => hc h)]

/-- C8 witness: a creation reporting handle 5 yields a signal with nonzero
handle; a successful status with handle 0 yields the `SignalOperationFailed`
error; dropping handle 5 destroys exactly once, dropping handle 0 never
destroys. -/
theorem signal_nonzero_handle_and_single_destroy_witness :
    ((⟨5⟩ : Signal).handle ≠ 0) ∧
    Signal.create ⟨fun _ => "", HSA_STATUS_SUCCESS, 0⟩ 1 =
      .error (.SignalOperationFailed "Signal creation returned invalid handle (0)") ∧
    Signal.dropDestroyCalls ⟨5⟩ = [5] ∧
    Signal.dropDestroyCalls ⟨0⟩ = [] :=
  ⟨signal_nonzero_handle_and_single_destroy.1 ⟨fun _ => "", HSA_STATUS_SUCCESS, 5⟩ 1 ⟨5⟩ rfl,
   signal_nonzero_handle_and_single_destroy.2.1 ⟨fun _ => "", HSA_STATUS_SUCCESS, 0⟩ 1 rfl rfl,
   signal_nonzero_handle_and_single_destroy.2.2.1 ⟨5⟩ (by decide),
   signal_nonzero_handle_and_single_destroy.2.2.2 ⟨0⟩ rfl⟩

/-- For nonzero `n`, the bit trick `n &&& (n - 1) == 0` used by
`Queue::create` implies `n` is a power of two. -/
theorem land_pred_eq_zero_pow (n : Nat) (hn : n ≠ 0)
    (h : n &&& (n - 1) = 0) : ∃ k, n = 2 ^ k := by
  refine ⟨n.log2, ?_⟩
  by_contra hne
  have h1 : 2 ^ n.log2 ≤ n := Nat.log2_self_le hn
  have h2 : n < 2 ^ (n.log2 + 1) := Nat.lt_log2_self
  have hlt : 2 ^ n.log2 < n := lt_of_le_of_ne h1 (fun hEq => hne hEq.symm)
  have hp : 0 < 2 ^ n.log2 := Nat.pos_pow_of_pos _ (by norm_num)
  have hdiv : n / 2 ^ n.log2 = 1 := by
    apply Nat.div_eq_of_lt_le
    · simpa using h1
    · have : 2 ^ (n.log2 + 1) = 2 * 2 ^ n.log2 := by ring
      omega
  have hdiv' : (n - 1) / 2 ^ n.log2 = 1 := by
    apply Nat.div_eq_of_lt_le
    · simp only [one_mul]
      omega
    · have : 2 ^ (n.log2 + 1) = 2 * 2 ^ n.log2 := by ring
      omega
  have hb1 : n.testBit n.log2 = true := by
    rw [Nat.testBit_to_div_mod, hdiv]
    rfl
  have hb2 : (n - 1).testBit n.log2 = true := by
    rw [Nat.testBit_to_div_mod, hdiv']
    rfl
  have : (n &&& (n - 1)).testBit n.log2 = true := by
    rw [Nat.testBit_land, hb1, hb2]
    rfl
  rw [h, Nat.zero_testBit] at this
  exact Bool.noConfusion this

/-- A power of two has no bit in common with its predecessor; the converse
direction of the `Queue::create` bit trick, used to refute powerhood of
concrete sizes. -/
theorem pow2_land_pred (k : Nat) : (2 ^ k) &&& (2 ^ k - 1) = 0 := by
  rw [Nat.and_pow_two_sub_one_eq_mod]
  exact Nat.mod_self _

/-- C3: for every agent whose queue-size-bound queries report `minv` and
`maxv` and every requested `size` that is zero, not a power of two, or
outside `[minv, maxv]`, `Queue::create` returns a `QueueCreationFailed`
error and never issues the underlying `hsa_queue_create` ring-creation
request. -/
theorem queue_create_rejects_invalid_sizes
    (env : QueueCreateEnv) (agent : Agent) (minv maxv size : Nat)
    (hbad : size = 0 ∨ (¬ ∃ k, size = 2 ^ k) ∨ size < minv ∨ maxv < size) :
    ∃ msg,
      Queue.create env agent ⟨.ok minv, .ok maxv⟩ size =
        { result := .error (.QueueCreationFailed msg), ringCreateRequested := false } := by
  by_cases h0 : size = 0 ∨ size &&& (size - 1) ≠ 0
  · exact ⟨s!"Queue size {size} must be a power of 2 and greater than 0", by
      simp only [Queue.create]
      rw [if_pos h0]⟩
  · push_neg at h0
    obtain ⟨hne, hland⟩ := h0
    have hnotc : ¬ (size = 0 ∨ size &&& (size - 1) ≠ 0) := by
      push_neg
      exact ⟨hne, hland⟩
    rcases hbad with h | h | h | h
    · exact absurd h hne
    · exact absurd (land_pred_eq_zero_pow size hne hland) h
    · exact ⟨s!"Queue size {size} is below minimum {minv} for this agent", by
        simp only [Queue.create, if_neg hnotc, unwrapOr]
        rw [if_pos h]⟩
    · by_cases hmin : size < minv
      · exact ⟨s!"Queue size {size} is below minimum {minv} for this agent", by
          simp only [Queue.create, if_neg hnotc, unwrapOr]
          rw [if_pos hmin]⟩
      · exact ⟨s!"Queue size {size} exceeds maximum {maxv} for this agent", by
          simp only [Queue.create, if_neg hnotc, unwrapOr]
          rw [if_neg hmin, if_pos h]⟩

/-- C3 witness: with agent bounds min = 1 and max = 1024, the requested
sizes 0, 3 and 100 are each rejected with a `QueueCreationFailed` error and
no ring creation is requested. -/
theorem queue_create_rejects_invalid_sizes_witness :
    (∃ msg, Queue.create ⟨fun _ => "", HSA_STATUS_SUCCESS, 7⟩ ⟨1⟩ ⟨.ok 1, .ok 1024⟩ 0 =
      { result := .error (.QueueCreationFailed msg), ringCreateRequested := false }) ∧
    (∃ msg, Queue.create ⟨fun _ => "", HSA_STATUS_SUCCESS, 7⟩ ⟨1⟩ ⟨.ok 1, .ok 1024⟩ 3 =
      { result := .error (.QueueCreationFailed msg), ringCreateRequested := false }) ∧
    (∃ msg, Queue.create ⟨fun _ => "", HSA_STATUS_SUCCESS, 7⟩ ⟨1⟩ ⟨.ok 1, .ok 1024⟩ 100 =
      { result := .error (.QueueCreationFailed msg), ringCreateRequested := false }) :=
  ⟨queue_create_rejects_invalid_sizes _ _ 1 1024 0 (Or.inl rfl),
   queue_create_rejects_invalid_sizes _ _ 1 1024 3
     (Or.inr (Or.inl (fun h => by
       obtain ⟨k, hk⟩ := h
       have hz := pow2_land_pred k
       rw [← hk] at hz
       exact absurd hz (by decide)))),
   queue_create_rejects_invalid_sizes _ _ 1 1024 100
     (Or.inr (Or.inl (fun h => by
       obtain ⟨k, hk⟩ := h
       have hz := pow2_land_pred k
       rw [← hk] at hz
       exact absurd hz (by decide))))⟩

/-- C10: when the agent's queue-min-size or queue-max-size query fails,
`Queue::create` does not propagate the query error: it behaves exactly as if
the agent had reported the default bounds min = 1 and max = `u32::MAX`,
proceeding with the size validation against those defaults. -/
theorem queue_create_defaults_on_query_failure
    (env : QueueCreateEnv) (agent : Agent) (e1 e2 : HsaError) (size : Nat) :
    Queue.create env agent ⟨.error e1, .error e2⟩ size =
      Queue.create env agent ⟨.ok 1, .ok U32_MAX⟩ size := rfl

/-- Enumeration helper: when every device query succeeds and some agent is
a GPU, `hsa_iterate_agents` with `find_gpu_callback` stops at the first
GPU, returning the break sentinel, that agent's handle, and a visited
count of its index plus one. -/
theorem hsa_iterate_agents_found (agents : List EnumAgent) (slot : Nat) (g : EnumAgent)
    (hok : ∀ a ∈ agents, (a.device_query).isOk = true)
    (hfind : agents.find? EnumAgent.isGpu = some g) :
    hsa_iterate_agents agents slot =
      (HSA_STATUS_INFO_BREAK, g.handle, agents.findIdx EnumAgent.isGpu + 1) := by
  induction agents generalizing slot with
  | nil => simp at hfind
  | cons a rest ih =>
    by_cases hg : a.isGpu = true
    · rw [List.find?_cons_of_pos _ hg] at hfind
      injection hfind with hga
      subst hga
      have hq : a.device_query = .ok HSA_DEVICE_TYPE_GPU := by
        simpa [EnumAgent.isGpu] using hg
      simp [hsa_iterate_agents, find_gpu_callback, hq, List.findIdx_cons, hg,
        HSA_STATUS_INFO_BREAK, HSA_STATUS_SUCCESS]
    · have hgf : a.isGpu = false := by
        simpa using hg
      rw [List.find?_cons_of_neg _ hg] at hfind
      have hqok := hok a (by simp)
      have hrest : ∀ x ∈ rest, (x.device_query).isOk = true :=
        fun x hx => hok x (by simp [hx])
      cases hdq : a.device_query with
      | error e =>
        rw [hdq] at hqok
        simp [Except.isOk, Except.toBool] at hqok
      | ok d =>
        have hd : d ≠ HSA_DEVICE_TYPE_GPU := fun hcon =>
          hg (by simp [EnumAgent.isGpu, hdq, hcon])
        simp [hsa_iterate_agents, find_gpu_callback, hdq, hd, List.findIdx_cons, hgf,
          ih slot hrest hfind, HSA_STATUS_SUCCESS]

/-- Enumeration helper: when every device query succeeds and no agent is a
GPU, `hsa_iterate_agents` with `find_gpu_callback` walks the whole list,
leaves the output slot untouched and returns success. -/
theorem hsa_iterate_agents_none (agents : List EnumAgent) (slot : Nat)
    (hok : ∀ a ∈ agents, (a.device_query).isOk = true)
    (hfind : agents.find? EnumAgent.isGpu = none) :
    hsa_iterate_agents agents slot = (HSA_STATUS_SUCCESS, slot, agents.length) := by
  induction agents generalizing slot with
  | nil => rfl
  | cons a rest ih =>
    rw [List.find?_eq_none] at hfind
    have hgne := hfind a (by simp)
    have hqok := hok a (by simp)
    have hrest : ∀ x ∈ rest, (x.device_query).isOk = true :=
      fun x hx => hok x (by simp [hx])
    have hfrest : rest.find? EnumAgent.isGpu = none :=
      List.find?_eq_none.mpr (fun x hx => hfind x (by simp [hx]))
    cases hdq : a.device_query with
    | error e =>
      rw [hdq] at hqok
      simp [Except.isOk, Except.toBool] at hqok
    | ok d =>
      have hd : d ≠ HSA_DEVICE_TYPE_GPU := fun hcon =>
        hgne (by simp [EnumAgent.isGpu, hdq, hcon])
      simp [hsa_iterate_agents, find_gpu_callback, hdq, hd,
        ih slot hrest hfrest, HSA_STATUS_SUCCESS]

/-- C5 (amended with the nonzero-handle proviso): when every device query
succeeds and every enumerated handle is nonzero, `Agent::find_gpu` returns
the first agent reporting GPU, visiting only the agents up to and
including it (the callback signalling the early-break sentinel
`HSA_STATUS_INFO_BREAK`, distinct from `HSA_STATUS_SUCCESS`), and fails
with `AgentNotFound` exactly when the enumeration completes with no agent
matching. -/
theorem find_gpu_first_match_or_not_found
    (ss : Nat → String) (agents : List EnumAgent)
    (hok : ∀ a ∈ agents, (a.device_query).isOk = true)
    (hnz : ∀ a ∈ agents, a.handle ≠ 0) :
    (∀ g, agents.find? EnumAgent.isGpu = some g →
       Agent.find_gpu ss agents = (.ok ⟨g.handle⟩, agents.findIdx EnumAgent.isGpu + 1) ∧
       agents.findIdx EnumAgent.isGpu + 1 ≤ agents.length ∧
       (∀ slot, find_gpu_callback g slot = (HSA_STATUS_INFO_BREAK, g.handle)) ∧
       HSA_STATUS_INFO_BREAK ≠ HSA_STATUS_SUCCESS) ∧
    (agents.find? EnumAgent.isGpu = none →
       Agent.find_gpu ss agents = (.error .AgentNotFound, agents.length)) := by
  constructor
  · intro g hfind
    have hit := hsa_iterate_agents_found agents 0 g hok hfind
    have hmem := List.mem_of_find?_eq_some hfind
    have hgnz := hnz g hmem
    have hgpu : g.device_query = .ok HSA_DEVICE_TYPE_GPU := by
      have := List.find?_some hfind
      simpa [EnumAgent.isGpu] using this
    refine ⟨?_, ?_, ?_, by decide⟩
    · simp [Agent.find_gpu, hit, HSA_STATUS_INFO_BREAK, HSA_STATUS_SUCCESS, hgnz]
    · have hlt := List.findIdx_lt_length_of_exists ⟨g, hmem, List.find?_some hfind⟩
      omega
    · intro slot
      simp [find_gpu_callback, hgpu]
  · intro hfind
    have hit := hsa_iterate_agents_none agents 0 hok hfind
    simp [Agent.find_gpu, hit, HSA_STATUS_SUCCESS, HSA_STATUS_INFO_BREAK]

/-- C5 counterexample to the claim as stated: enumerating a single GPU
agent whose handle is 0, the callback does find a GPU and breaks early,
yet `Agent::find_gpu` reports `AgentNotFound` — so "fails with
`AgentNotFound` if and only if enumeration completes with no agent
matching" is false on the code (handle 0 doubles as its not-found
sentinel). -/
theorem find_gpu_zero_handle_counterexample :
    ([⟨0, .ok HSA_DEVICE_TYPE_GPU⟩] : List EnumAgent).find? EnumAgent.isGpu =
      some ⟨0, .ok HSA_DEVICE_TYPE_GPU⟩ ∧
    Agent.find_gpu (fun _ => "") [⟨0, .ok HSA_DEVICE_TYPE_GPU⟩] =
      (.error .AgentNotFound, 1) := by
  exact ⟨by decide, by decide⟩

/-- C5 witness: among agents (5, CPU), (7, GPU), (9, GPU) the GPU with
handle 7 is returned after visiting exactly two agents; a CPU-only
enumeration fails with `AgentNotFound` after visiting all agents. -/
theorem find_gpu_first_match_or_not_found_witness :
    Agent.find_gpu (fun _ => "")
        [⟨5, .ok HSA_DEVICE_TYPE_CPU⟩, ⟨7, .ok HSA_DEVICE_TYPE_GPU⟩,
         ⟨9, .ok HSA_DEVICE_TYPE_GPU⟩] =
      (.ok ⟨7⟩, 2) ∧
    Agent.find_gpu (fun _ => "") [⟨5, .ok HSA_DEVICE_TYPE_CPU⟩] =
      (.error .AgentNotFound, 1) :=
  ⟨((find_gpu_first_match_or_not_found (fun _ => "")
      [⟨5, .ok HSA_DEVICE_TYPE_CPU⟩, ⟨7, .ok HSA_DEVICE_TYPE_GPU⟩,
       ⟨9, .ok HSA_DEVICE_TYPE_GPU⟩] (by decide) (by decide)).1
      ⟨7, .ok HSA_DEVICE_TYPE_GPU⟩ (by decide)).1,
   (find_gpu_first_match_or_not_found (fun _ => "")
      [⟨5, .ok HSA_DEVICE_TYPE_CPU⟩] (by decide) (by decide)).2 (by decide)⟩

/-- Monadic reduction helper for the `Except`-modelled `?` chains. -/
theorem hsa_ok_bind {α β : Type} (a : α) (f : α → HsaResult β) :
    (Except.ok a >>= f) = f a := rfl

/-- Monadic reduction helper: a failed step short-circuits the chain. -/
theorem hsa_error_bind {α β : Type} (e : HsaError) (f : α → HsaResult β) :
    ((Except.error e : HsaResult α) >>= f) = .error e := rfl

/-- The classification loop of `HsaContext::new` never touches the kernarg
slot when no region reports the KERNARG segment. -/
theorem classifyRegions_no_kernarg (rs : List RegionInfo) :
    ∀ (acc cls : ClassifiedRegions),
      classifyRegions rs acc = .ok cls →
      (∀ r ∈ rs, r.segment ≠ .ok HSA_REGION_SEGMENT_KERNARG) →
      cls.kernarg_region = acc.kernarg_region := by
  induction rs with
  | nil =>
    intro acc cls h _
    simp only [classifyRegions] at h
    cases h
    rfl
  | cons r rest ih =>
    intro acc cls h hnk
    have hr := hnk r (by simp)
    have hrest : ∀ x ∈ rest, x.segment ≠ .ok HSA_REGION_SEGMENT_KERNARG :=
      fun x hx => hnk x (by simp [hx])
    simp only [classifyRegions] at h
    cases hseg : r.segment with
    | error e =>
      simp only [hseg] at h
      exact Except.noConfusion h
    | ok seg =>
      simp only [hseg] at h
      by_cases hk : seg = HSA_REGION_SEGMENT_KERNARG
      · exact absurd (by rw [hseg, hk]) hr
      · rw [if_neg hk] at h
        by_cases hgl : seg = HSA_REGION_SEGMENT_GLOBAL
        · rw [if_pos hgl] at h
          cases hfl : r.global_flags with
          | error e =>
            simp only [hfl] at h
            exact Except.noConfusion h
          | ok flags =>
            simp only [hfl] at h
            by_cases hff : flags &&& HSA_REGION_GLOBAL_FLAG_FINE_GRAINED ≠ 0
            · rw [if_pos hff] at h
              exact ih { acc with fine_grained_region := some r } cls h hrest
            · rw [if_neg hff] at h
              exact ih { acc with coarse_grained_region := some r } cls h hrest
        · rw [if_neg hgl] at h
          exact ih _ _ h hrest

/-- C9: with initialization, GPU discovery, region iteration and all region
queries succeeding, `HsaContext::new` (a) succeeds with `kernarg_region`
`None` when no region reports the KERNARG segment (given fine- and
coarse-grained GLOBAL regions exist and queue creation succeeds), (b) fails
with `MemoryRegionNotFound` when the coarse-grained GLOBAL region is
absent, (c) fails with `MemoryRegionNotFound` when the fine-grained GLOBAL
region is absent, and (d) the classification puts a GLOBAL region whose
flags lack `FINE_GRAINED` into the coarse-grained slot regardless of its
other flag bits. -/
theorem context_new_region_classification
    (env : ContextEnv) (g : Agent) (rs : List RegionInfo) (cls : ClassifiedRegions) :
    (env.init_status = HSA_STATUS_SUCCESS →
     (Agent.find_gpu env.statusString env.agents).1 = .ok g →
     env.regions = .ok rs →
     classifyRegions rs ⟨none, none, none⟩ = .ok cls →
     (∀ r ∈ rs, r.segment ≠ .ok HSA_REGION_SEGMENT_KERNARG) →
     ∀ f c qp, cls.fine_grained_region = some f →
       cls.coarse_grained_region = some c →
       (Queue.create env.queue_env g env.agent_queue 1024).result = .ok qp →
       HsaContext.new env = .ok ⟨g, some qp, none, some f, some c⟩) ∧
    (env.init_status = HSA_STATUS_SUCCESS →
     (Agent.find_gpu env.statusString env.agents).1 = .ok g →
     env.regions = .ok rs →
     classifyRegions rs ⟨none, none, none⟩ = .ok cls →
     cls.coarse_grained_region = none →
       HsaContext.new env = .error .MemoryRegionNotFound) ∧
    (env.init_status = HSA_STATUS_SUCCESS →
     (Agent.find_gpu env.statusString env.agents).1 = .ok g →
     env.regions = .ok rs →
     classifyRegions rs ⟨none, none, none⟩ = .ok cls →
     ∀ c, cls.coarse_grained_region = some c →
       cls.fine_grained_region = none →
       HsaContext.new env = .error .MemoryRegionNotFound) ∧
    (∀ (r : RegionInfo) (fl : Nat) (acc : ClassifiedRegions),
       r.segment = .ok HSA_REGION_SEGMENT_GLOBAL →
       r.global_flags = .ok fl →
       fl &&& HSA_REGION_GLOBAL_FLAG_FINE_GRAINED = 0 →
       classifyRegions [r] acc = .ok { acc with coarse_grained_region := some r }) := by
  refine ⟨?_, ?_, ?_, ?_⟩
  · intro h1 h2 h3 h4 h5 f c qp hf hc hq
    have hkn := classifyRegions_no_kernarg rs ⟨none, none, none⟩ cls h4 h5
    simp only [HsaContext.new, h1, h2, h3, h4, hf, hc, hq, hkn,
      hsa_ok_bind, ne_eq, not_true_eq_false, if_false, pure_bind]
  · intro h1 h2 h3 h4 hc
    simp only [HsaContext.new, h1, h2, h3, h4, hc,
      hsa_ok_bind, hsa_error_bind, ne_eq, not_true_eq_false, if_false, pure_bind]
  · intro h1 h2 h3 h4 c hc hf
    simp only [HsaContext.new, h1, h2, h3, h4, hc, hf,
      hsa_ok_bind, hsa_error_bind, ne_eq, not_true_eq_false, if_false, pure_bind]
  · intro r fl acc h1 h2 h3
    simp only [classifyRegions, h1, h2, h3,
      HSA_REGION_SEGMENT_GLOBAL, HSA_REGION_SEGMENT_KERNARG]
    norm_num

/-- C9 witness: a concrete environment whose GPU agent exposes a
fine-grained and a coarse-grained GLOBAL region but no KERNARG region
builds a context with `kernarg_region = none`; dropping the coarse-grained
(resp. fine-grained) region yields `MemoryRegionNotFound`; and a GLOBAL
region with flags KERNARG|COARSE_GRAINED (no FINE_GRAINED bit) classifies
as coarse-grained. -/
theorem context_new_region_classification_witness :
    HsaContext.new ⟨fun _ => "", HSA_STATUS_SUCCESS, [⟨7, .ok HSA_DEVICE_TYPE_GPU⟩],
        .ok [⟨21, .ok HSA_REGION_SEGMENT_GLOBAL, .ok HSA_REGION_GLOBAL_FLAG_FINE_GRAINED⟩,
             ⟨22, .ok HSA_REGION_SEGMENT_GLOBAL, .ok 0⟩],
        ⟨.ok 1, .ok 4096⟩, ⟨fun _ => "", HSA_STATUS_SUCCESS, 11⟩⟩ =
      .ok ⟨⟨7⟩, some 11, none,
           some ⟨21, .ok HSA_REGION_SEGMENT_GLOBAL, .ok HSA_REGION_GLOBAL_FLAG_FINE_GRAINED⟩,
           some ⟨22, .ok HSA_REGION_SEGMENT_GLOBAL, .ok 0⟩⟩ ∧
    HsaContext.new ⟨fun _ => "", HSA_STATUS_SUCCESS, [⟨7, .ok HSA_DEVICE_TYPE_GPU⟩],
        .ok [⟨21, .ok HSA_REGION_SEGMENT_GLOBAL, .ok HSA_REGION_GLOBAL_FLAG_FINE_GRAINED⟩],
        ⟨.ok 1, .ok 4096⟩, ⟨fun _ => "", HSA_STATUS_SUCCESS, 11⟩⟩ =
      .error .MemoryRegionNotFound ∧
    HsaContext.new ⟨fun _ => "", HSA_STATUS_SUCCESS, [⟨7, .ok HSA_DEVICE_TYPE_GPU⟩],
        .ok [⟨22, .ok HSA_REGION_SEGMENT_GLOBAL, .ok 0⟩],
        ⟨.ok 1, .ok 4096⟩, ⟨fun _ => "", HSA_STATUS_SUCCESS, 11⟩⟩ =
      .error .MemoryRegionNotFound ∧
    classifyRegions [⟨9, .ok HSA_REGION_SEGMENT_GLOBAL,
        .ok (HSA_REGION_GLOBAL_FLAG_KERNARG ||| HSA_REGION_GLOBAL_FLAG_COARSE_GRAINED)⟩]
        ⟨none, none, none⟩ =
      .ok ⟨none, none, some ⟨9, .ok HSA_REGION_SEGMENT_GLOBAL,
        .ok (HSA_REGION_GLOBAL_FLAG_KERNARG ||| HSA_REGION_GLOBAL_FLAG_COARSE_GRAINED)⟩⟩ :=
  ⟨(context_new_region_classification
      ⟨fun _ => "", HSA_STATUS_SUCCESS, [⟨7, .ok HSA_DEVICE_TYPE_GPU⟩],
        .ok [⟨21, .ok HSA_REGION_SEGMENT_GLOBAL, .ok HSA_REGION_GLOBAL_FLAG_FINE_GRAINED⟩,
             ⟨22, .ok HSA_REGION_SEGMENT_GLOBAL, .ok 0⟩],
        ⟨.ok 1, .ok 4096⟩, ⟨fun _ => "", HSA_STATUS_SUCCESS, 11⟩⟩ ⟨7⟩
      [⟨21, .ok HSA_REGION_SEGMENT_GLOBAL, .ok HSA_REGION_GLOBAL_FLAG_FINE_GRAINED⟩,
       ⟨22, .ok HSA_REGION_SEGMENT_GLOBAL, .ok 0⟩]
      ⟨none, some ⟨21, .ok HSA_REGION_SEGMENT_GLOBAL, .ok HSA_REGION_GLOBAL_FLAG_FINE_GRAINED⟩,
       some ⟨22, .ok HSA_REGION_SEGMENT_GLOBAL, .ok 0⟩⟩).1
      rfl (by decide) rfl (by decide) (by decide) _ _ 11 rfl rfl (by decide),
   (context_new_region_classification
      ⟨fun _ => "", HSA_STATUS_SUCCESS, [⟨7, .ok HSA_DEVICE_TYPE_GPU⟩],
        .ok [⟨21, .ok HSA_REGION_SEGMENT_GLOBAL, .ok HSA_REGION_GLOBAL_FLAG_FINE_GRAINED⟩],
        ⟨.ok 1, .ok 4096⟩, ⟨fun _ => "", HSA_STATUS_SUCCESS, 11⟩⟩ ⟨7⟩
      [⟨21, .ok HSA_REGION_SEGMENT_GLOBAL, .ok HSA_REGION_GLOBAL_FLAG_FINE_GRAINED⟩]
      ⟨none, some ⟨21, .ok HSA_REGION_SEGMENT_GLOBAL, .ok HSA_REGION_GLOBAL_FLAG_FINE_GRAINED⟩,
       none⟩).2.1
      rfl (by decide) rfl (by decide) rfl,
   (context_new_region_classification
      ⟨fun _ => "", HSA_STATUS_SUCCESS, [⟨7, .ok HSA_DEVICE_TYPE_GPU⟩],
        .ok [⟨22, .ok HSA_REGION_SEGMENT_GLOBAL, .ok 0⟩],
        ⟨.ok 1, .ok 4096⟩, ⟨fun _ => "", HSA_STATUS_SUCCESS, 11⟩⟩ ⟨7⟩
      [⟨22, .ok HSA_REGION_SEGMENT_GLOBAL, .ok 0⟩]
      ⟨none, none, some ⟨22, .ok HSA_REGION_SEGMENT_GLOBAL, .ok 0⟩⟩).2.2.1
      rfl (by decide) rfl (by decide) _ rfl rfl,
   (context_new_region_classification ⟨fun _ => "", 0, [], .ok [], ⟨.ok 1, .ok 1⟩,
      ⟨fun _ => "", 0, 1⟩⟩ ⟨0⟩ [] ⟨none, none, none⟩).2.2.2
      ⟨9, .ok HSA_REGION_SEGMENT_GLOBAL,
        .ok (HSA_REGION_GLOBAL_FLAG_KERNARG ||| HSA_REGION_GLOBAL_FLAG_COARSE_GRAINED)⟩
      (HSA_REGION_GLOBAL_FLAG_KERNARG ||| HSA_REGION_GLOBAL_FLAG_COARSE_GRAINED)
      ⟨none, none, none⟩ rfl rfl (by decide)⟩

end HsaRt
